import Mathlib

/-!
Verification of the rust-hwi execution/response layer: a shallow embedding of
the crate's error model, device types, tolerant enumeration decoding,
subprocess command assembly and JSON (de)serialization, with theorems about
the spec's claims.
-/

set_option maxRecDepth 4000

namespace Hwi

/-- The 18 symbolic error codes (`src/error.rs`, enum `ErrorCode`).
The Rust enum carries explicit discriminants 1..18. -/
inductive ErrorCode where
  | NoDeviceType
  | MissingArguments
  | DeviceConnError
  | UnknownDeviceType
  | InvalidTx
  | NoPassword
  | BadArgument
  | NotImpl
  | UnavailableAction
  | DeviceAlreadyInit
  | DeviceAlreadyUnlocked
  | DeviceNotReady
  | UnknownError
  | ActionCanceled
  | DeviceBusy
  | NeedToBeRoot
  | HelpText
  | DeviceNotInitialized
  deriving DecidableEq, Repr

/-- Discriminant of the Rust enum (`ErrorCode::as_u8`): `*self as u8`. -/
def ErrorCode.as_u8 : ErrorCode → Nat
  | .NoDeviceType => 1
  | .MissingArguments => 2
  | .DeviceConnError => 3
  | .UnknownDeviceType => 4
  | .InvalidTx => 5
  | .NoPassword => 6
  | .BadArgument => 7
  | .NotImpl => 8
  | .UnavailableAction => 9
  | .DeviceAlreadyInit => 10
  | .DeviceAlreadyUnlocked => 11
  | .DeviceNotReady => 12
  | .UnknownError => 13
  | .ActionCanceled => 14
  | .DeviceBusy => 15
  | .NeedToBeRoot => 16
  | .HelpText => 17
  | .DeviceNotInitialized => 18

/-- `ErrorCode::as_i8`: `-(*self as i8)`; discriminants 1..18 fit in i8, so
this is the exact negation of the discriminant. -/
def ErrorCode.as_i8 (e : ErrorCode) : Int := -(e.as_u8 : Int)

/-- The crate error type (`src/error.rs`, enum `Error`). Payloads of the
`Json`/`Utf8`/`Io`/`Python` variants are opaque diagnostics; only the `Hwi`
variant's payload matters to the claims. -/
inductive Error where
  | Json (msg : String)
  | Utf8 (msg : String)
  | Io (msg : String)
  | Hwi (s : String) (code : Option ErrorCode)
  | Python (msg : String)
  deriving DecidableEq, Repr

/-- `impl TryFrom<i8> for ErrorCode` (`src/error.rs:37-66`): matches codes
`-1` through `-18` to the corresponding variant; everything else is
`Err(Error::Hwi("invalid error code", None))`. The i8 argument is embedded
as an `Int` (the source match is over the full i8 value range). -/
def ErrorCode.try_from (code : Int) : Except Error ErrorCode :=
  if code = -1 then .ok .NoDeviceType
  else if code = -2 then .ok .MissingArguments
  else if code = -3 then .ok .DeviceConnError
  else if code = -4 then .ok .UnknownDeviceType
  else if code = -5 then .ok .InvalidTx
  else if code = -6 then .ok .NoPassword
  else if code = -7 then .ok .BadArgument
  else if code = -8 then .ok .NotImpl
  else if code = -9 then .ok .UnavailableAction
  else if code = -10 then .ok .DeviceAlreadyInit
  else if code = -11 then .ok .DeviceAlreadyUnlocked
  else if code = -12 then .ok .DeviceNotReady
  else if code = -13 then .ok .UnknownError
  else if code = -14 then .ok .ActionCanceled
  else if code = -15 then .ok .DeviceBusy
  else if code = -16 then .ok .NeedToBeRoot
  else if code = -17 then .ok .HelpText
  else if code = -18 then .ok .DeviceNotInitialized
  else .error (.Hwi "invalid error code" none)

/-- Helper: `ErrorCode::try_from` fails with the fixed decode error on every
code outside `-18..=-1` (the catch-all arm of the source match). -/
theorem ErrorCode.try_from_out_of_range (c : Int) (hout : c < -18 ∨ -1 < c) :
    ErrorCode.try_from c = .error (.Hwi "invalid error code" none) := by
  have hne : ∀ k : Int, -18 ≤ k → k ≤ -1 → c ≠ k := by
    rcases hout with h | h <;> intro k hk1 hk2 hne <;> omega
  unfold ErrorCode.try_from
  rw [if_neg (hne (-1) (by norm_num) (by norm_num)),
      if_neg (hne (-2) (by norm_num) (by norm_num)),
      if_neg (hne (-3) (by norm_num) (by norm_num)),
      if_neg (hne (-4) (by norm_num) (by norm_num)),
      if_neg (hne (-5) (by norm_num) (by norm_num)),
      if_neg (hne (-6) (by norm_num) (by norm_num)),
      if_neg (hne (-7) (by norm_num) (by norm_num)),
      if_neg (hne (-8) (by norm_num) (by norm_num)),
      if_neg (hne (-9) (by norm_num) (by norm_num)),
      if_neg (hne (-10) (by norm_num) (by norm_num)),
      if_neg (hne (-11) (by norm_num) (by norm_num)),
      if_neg (hne (-12) (by norm_num) (by norm_num)),
      if_neg (hne (-13) (by norm_num) (by norm_num)),
      if_neg (hne (-14) (by norm_num) (by norm_num)),
      if_neg (hne (-15) (by norm_num) (by norm_num)),
      if_neg (hne (-16) (by norm_num) (by norm_num)),
      if_neg (hne (-17) (by norm_num) (by norm_num)),
      if_neg (hne (-18) (by norm_num) (by norm_num))]

end Hwi

open Hwi in
/-- C1: For every i8 value `c` in `-18..=-1`, `ErrorCode::try_from c` returns
`Ok` of a code whose `as_i8` is `c` (and the mapping is bijective on the
18-entry domain: `try_from (as_i8 e) = Ok e` for every code `e`); every i8
value outside `-18..=-1` yields the decode-failure error
`Hwi "invalid error code" None`. -/
theorem errorcode_try_from_bijection :
    (∀ e : ErrorCode, ErrorCode.try_from e.as_i8 = .ok e) ∧
    (∀ c : Int, -18 ≤ c → c ≤ -1 →
      ∃ e : ErrorCode, ErrorCode.try_from c = .ok e ∧ e.as_i8 = c) ∧
    (∀ c : Int, -128 ≤ c → c ≤ 127 → (c < -18 ∨ -1 < c) →
      ErrorCode.try_from c = .error (.Hwi "invalid error code" none)) := by
  refine ⟨?_, ?_, ?_⟩
  · intro e; cases e <;> rfl
  · intro c h1 h2
    interval_cases c <;> exact ⟨_, rfl, rfl⟩
  · intro c _ _ hout
    exact ErrorCode.try_from_out_of_range c hout

open Hwi in
/-- C1 witness: the bijection instantiated at `-7` (maps to `BadArgument`)
and the out-of-range value `-19` (decode failure). -/
theorem errorcode_try_from_bijection_witness :
    (∃ e : ErrorCode, ErrorCode.try_from (-7) = .ok e ∧ e.as_i8 = -7) ∧
    ErrorCode.try_from (-19) = .error (.Hwi "invalid error code" none) :=
  ⟨errorcode_try_from_bijection.2.1 (-7) (by norm_num) (by norm_num),
   errorcode_try_from_bijection.2.2 (-19) (by norm_num) (by norm_num)
     (Or.inl (by norm_num))⟩

namespace Hwi

/-- A 4-byte device fingerprint (`bitcoin::bip32::Fingerprint`). The bytes
are `Nat`s below 256; hex rendering and parsing are defined below. -/
structure Fingerprint where
  b0 : Nat
  b1 : Nat
  b2 : Nat
  b3 : Nat
  deriving DecidableEq, Repr

/-- Lowercase hex digit for a value below 16. -/
def hexDigitChar (n : Nat) : Char :=
  if n < 10 then Char.ofNat (48 + n) else Char.ofNat (87 + n)

/-- Two lowercase hex digits of a byte. -/
def byteHex (b : Nat) : List Char :=
  [hexDigitChar (b / 16 % 16), hexDigitChar (b % 16)]

/-- `Fingerprint`'s `Display`: eight lowercase hex characters. -/
def Fingerprint.toStr (f : Fingerprint) : String :=
  ⟨byteHex f.b0 ++ byteHex f.b1 ++ byteHex f.b2 ++ byteHex f.b3⟩

/-- Value of one hex character (either case), `none` for non-hex. -/
def hexVal (c : Char) : Option Nat :=
  if 48 ≤ c.toNat ∧ c.toNat ≤ 57 then some (c.toNat - 48)
  else if 97 ≤ c.toNat ∧ c.toNat ≤ 102 then some (c.toNat - 87)
  else if 65 ≤ c.toNat ∧ c.toNat ≤ 70 then some (c.toNat - 55)
  else none

/-- `Fingerprint`'s serde/`FromStr` rule: exactly eight hex characters. -/
def Fingerprint.fromHex (s : String) : Option Fingerprint :=
  match s.data with
  | [c0, c1, c2, c3, c4, c5, c6, c7] => do
    let h0 ← hexVal c0
    let h1 ← hexVal c1
    let h2 ← hexVal c2
    let h3 ← hexVal c3
    let h4 ← hexVal c4
    let h5 ← hexVal c5
    let h6 ← hexVal c6
    let h7 ← hexVal c7
    some ⟨h0 * 16 + h1, h2 * 16 + h3, h4 * 16 + h5, h6 * 16 + h7⟩
  | _ => none

/-- Device type (`src/types.rs`, enum `HWIDeviceType`): seven known vendors
plus an open `Other` variant. -/
inductive HWIDeviceType where
  | Ledger
  | Trezor
  | BitBox01
  | BitBox02
  | KeepKey
  | Coldcard
  | Jade
  | Other (name : String)
  deriving DecidableEq, Repr

/-- `impl From<T: AsRef<str>> for HWIDeviceType` (`src/types.rs:272-288`). -/
def HWIDeviceType.fromStr (s : String) : HWIDeviceType :=
  if s = "ledger" then .Ledger
  else if s = "trezor" then .Trezor
  else if s = "digitalbitbox" then .BitBox01
  else if s = "bitbox02" then .BitBox02
  else if s = "keepkey" then .KeepKey
  else if s = "coldcard" then .Coldcard
  else if s = "jade" then .Jade
  else .Other s

/-- Validated device record (`src/types.rs`, struct `HWIDevice`). -/
structure HWIDevice where
  device_type : HWIDeviceType
  model : String
  path : String
  needs_pin_sent : Bool
  needs_passphrase_sent : Bool
  fingerprint : Fingerprint
  deriving DecidableEq, Repr

/-- Tolerant wire record (`src/types.rs`, struct `HWIDeviceInternal`): every
field optional, plus optional error string and optional numeric code (i8,
embedded as `Int`). -/
structure HWIDeviceInternal where
  device_type : Option String
  model : Option String
  path : Option String
  needs_pin_sent : Option Bool
  needs_passphrase_sent : Option Bool
  fingerprint : Option Fingerprint
  error : Option String
  code : Option Int
  deriving DecidableEq, Repr

/-- Outcome of the Rust `TryFrom<HWIDeviceInternal> for HWIDevice` body:
the function either returns `Ok`, returns `Err`, or panics via `expect`
(the `panics` constructor carries the `expect` message). -/
inductive ConvOutcome where
  | ok (d : HWIDevice)
  | err (e : Error)
  | panics (msg : String)
  deriving DecidableEq, Repr

/-- `impl TryFrom<HWIDeviceInternal> for HWIDevice` (`src/types.rs:213-239`).
With an error string present, the numeric code is passed through
`ErrorCode::try_from(c).ok()` (failures become `None`) and the item is
`Err(Error::Hwi(e, code))`. With no error string, each field is unwrapped
with `expect`, in the struct-literal order of the source, so a missing
field panics with that field's message. -/
def HWIDevice.try_from (h : HWIDeviceInternal) : ConvOutcome :=
  match h.error with
  | some e => .err (.Hwi e (h.code.bind fun c => (ErrorCode.try_from c).toOption))
  | none =>
    match h.device_type with
    | none => .panics "Device type should be here"
    | some dt =>
      match h.model with
      | none => .panics "Model should be here"
      | some m =>
        match h.path with
        | none => .panics "Path should be here"
        | some p =>
          match h.needs_pin_sent with
          | none => .panics "needs_pin_sent should be here"
          | some nps =>
            match h.needs_passphrase_sent with
            | none => .panics "needs_passphrase_sent should be here"
            | some npps =>
              match h.fingerprint with
              | none => .panics "Fingerprint should be here"
              | some fp => .ok ⟨HWIDeviceType.fromStr dt, m, p, nps, npps, fp⟩

end Hwi

open Hwi in
/-- C2 counterexample: a wire record with no error string and every data
field absent makes the conversion panic (the `expect` on the first missing
field, `device_type`) — it does not return a decode-failure error value. -/
theorem device_try_from_missing_field_panics :
    HWIDevice.try_from ⟨none, none, none, none, none, none, none, none⟩ =
      .panics "Device type should be here" := rfl

open Hwi in
/-- C2 amended: when the wire record has no error string but at least one of
the other fields is absent, the conversion panics (with the `expect` message
of the first missing field in source order) rather than returning a value. -/
theorem device_try_from_missing_field_outcome (h : HWIDeviceInternal)
    (herr : h.error = none)
    (hmiss : h.device_type = none ∨ h.model = none ∨ h.path = none ∨
      h.needs_pin_sent = none ∨ h.needs_passphrase_sent = none ∨
      h.fingerprint = none) :
    ∃ msg, HWIDevice.try_from h = .panics msg := by
  obtain ⟨dt, m, p, nps, npps, fp, e, c⟩ := h
  simp only at herr hmiss
  subst herr
  cases dt <;> cases m <;> cases p <;> cases nps <;> cases npps <;> cases fp <;>
    first
      | exact ⟨_, rfl⟩
      | (exfalso; rcases hmiss with h1 | h1 | h1 | h1 | h1 | h1 <;> simp_all)

open Hwi in
/-- C2 amended witness: a record with no error and only the model missing
panics with the model message. -/
theorem device_try_from_missing_field_outcome_witness :
    ∃ msg, HWIDevice.try_from
      ⟨some "trezor", none, some "p", some false, some false,
        some ⟨0, 0, 0, 0⟩, none, none⟩ = .panics msg :=
  device_try_from_missing_field_outcome
    ⟨some "trezor", none, some "p", some false, some false,
      some ⟨0, 0, 0, 0⟩, none, none⟩ rfl (Or.inr (Or.inl rfl))

open Hwi in
/-- C3 counterexample: an error string "x" together with the unrecognized
code `-19` produces `Err(Hwi "x" None)` — the unrecognized code is silently
dropped and the error is reported exactly as if no code had been sent,
contradicting the claim that it is reported as a decode error. -/
theorem device_try_from_unrecognized_code_dropped :
    HWIDevice.try_from
      ⟨none, none, none, none, none, none, some "x", some (-19)⟩ =
      .err (.Hwi "x" none) := rfl

open Hwi in
/-- C3 amended: when an error string is present together with a numeric code
outside `-18..=-1`, the conversion discards the unrecognized code
(`ErrorCode::try_from(c).ok()` turns the failure into `None`) and yields
`Err(Hwi error_string None)`, indistinguishable from a record carrying no
code at all. -/
theorem device_try_from_unrecognized_code (h : HWIDeviceInternal)
    (e : String) (c : Int) (herr : h.error = some e) (hcode : h.code = some c)
    (hout : c < -18 ∨ -1 < c) :
    HWIDevice.try_from h = .err (.Hwi e none) := by
  unfold HWIDevice.try_from
  rw [herr, hcode]
  show ConvOutcome.err (.Hwi e (ErrorCode.try_from c).toOption) = _
  rw [ErrorCode.try_from_out_of_range c hout]
  rfl

open Hwi in
/-- C3 amended witness: instantiated at the record with error "x" and code
`-19`. -/
theorem device_try_from_unrecognized_code_witness :
    HWIDevice.try_from
      ⟨some "t", none, none, none, none, none, some "x", some (-19)⟩ =
      .err (.Hwi "x" none) :=
  device_try_from_unrecognized_code
    ⟨some "t", none, none, none, none, none, some "x", some (-19)⟩
    "x" (-19) rfl rfl (Or.inl (by norm_num))

namespace Hwi

/-- Chain selector (`src/types.rs`, struct `HWIChain` wrapping
`bitcoin::Network`); `otherNet` models the non-exhaustive catch-all of the
wrapped type, which `Display` renders as "UNKNOWN". -/
inductive HWIChain where
  | Main
  | Test
  | Regtest
  | Signet
  | otherNet
  deriving DecidableEq, Repr

/-- `HWIChain`'s `Display` (`src/types.rs:144-154`). -/
def HWIChain.toStr : HWIChain → String
  | .Main => "MAIN"
  | .Test => "TEST"
  | .Regtest => "REGTEST"
  | .Signet => "SIGNET"
  | .otherNet => "UNKNOWN"

/-- Address type (`src/types.rs`, enum `HWIAddressType`). -/
inductive HWIAddressType where
  | Legacy
  | ShWit
  | Wit
  | Tap
  deriving DecidableEq, Repr

/-- `HWIAddressType`'s `Display` (`src/types.rs:115-124`). -/
def HWIAddressType.toStr : HWIAddressType → String
  | .Legacy => "LEGACY"
  | .ShWit => "SH_WIT"
  | .Wit => "WIT"
  | .Tap => "TAP"

/-- An executor for the subprocess backend
(`HWIBinaryExecutor::execute_command`): takes the assembled argument vector,
returns raw response text or an error. The backend is generic over it. -/
def Exec : Type := List String → Except Error String

namespace BinaryHWIImplementation

/-- The prefix of `BinaryHWIImplementation::run_hwi_command`
(`src/implementations/binary_implementation.rs:296-326`) that assembles
`command_args` before handing them to the executor: unless `args` contains
the literal token "enumerate" or "--version", a bound device is required and
its fingerprint flag is pushed first; then the expert flag, then the chain
flag, then `args` itself. -/
def build_command_args (device : Option HWIDevice) (expert : Bool)
    (chain : Option HWIChain) (args : List String) :
    Except Error (List String) := do
  let fpPart ←
    if !(args.contains "enumerate") && !(args.contains "--version") then
      match device with
      | none => Except.error (.Hwi "Device fingerprint not set" none)
      | some d => Except.ok ["--fingerprint", d.fingerprint.toStr]
    else Except.ok []
  Except.ok (fpPart ++ (if expert then ["--expert"] else []) ++
    (match chain with
     | some c => ["--chain", c.toStr]
     | none => []) ++ args)

/-- `run_hwi_command`: assemble the vector, then hand it to the executor. -/
def run_hwi_command (exec : Exec) (device : Option HWIDevice) (expert : Bool)
    (chain : Option HWIChain) (args : List String) : Except Error String :=
  (build_command_args device expert chain args).bind exec

/-- State of a `BinaryHWIImplementation` value: optional bound device,
expert flag and chain (`src/implementations/binary_implementation.rs:20-26`). -/
structure State where
  device : Option HWIDevice
  expert : Bool
  chain : HWIChain

/-- `HWIImplementation::enumerate` for the binary backend
(`binary_implementation.rs:29-33`): no device, no expert, no chain. -/
def enumerate (exec : Exec) : Except Error String :=
  run_hwi_command exec none false none ["enumerate"]

/-- `get_version` (`binary_implementation.rs:286-289`). -/
def get_version (exec : Exec) : Except Error String :=
  run_hwi_command exec none false none ["--version"]

/-- Operation-specific args of `get_master_xpub`
(`binary_implementation.rs:80-86`). -/
def get_master_xpub_args (addrtype : HWIAddressType) (account : Nat) :
    List String :=
  ["getmasterxpub", "--addr-type", addrtype.toStr, "--account",
    toString account]

/-- `get_master_xpub` (`binary_implementation.rs:80-93`). -/
def get_master_xpub (exec : Exec) (st : State) (addrtype : HWIAddressType)
    (account : Nat) : Except Error String :=
  run_hwi_command exec st.device st.expert (some st.chain)
    (get_master_xpub_args addrtype account)

/-- `sign_tx` (`binary_implementation.rs:95-106`); the PSBT argument is its
base64 string rendering. -/
def sign_tx (exec : Exec) (st : State) (psbt_str : String) :
    Except Error String :=
  run_hwi_command exec st.device st.expert (some st.chain)
    ["signtx", psbt_str]

/-- `get_xpub` (`binary_implementation.rs:108-117`); note the source passes
the `expert` parameter, not the stored one. -/
def get_xpub (exec : Exec) (st : State) (path : String) (expert : Bool) :
    Except Error String :=
  run_hwi_command exec st.device expert (some st.chain) ["getxpub", path]

/-- Operation-specific args of `sign_message`
(`binary_implementation.rs:120`). -/
def sign_message_args (message path : String) : List String :=
  ["signmessage", message, path]

/-- `sign_message` (`binary_implementation.rs:119-128`). -/
def sign_message (exec : Exec) (st : State) (message path : String) :
    Except Error String :=
  run_hwi_command exec st.device st.expert (some st.chain)
    (sign_message_args message path)

/-- Operation-specific args of `get_keypool`
(`binary_implementation.rs:141-162`). -/
def get_keypool_args (keypool internal : Bool) (addr_type : HWIAddressType)
    (addr_all : Bool) (account : Nat) (path : Option String)
    (start stop : Nat) : List String :=
  ["getkeypool"] ++
    (if keypool then ["--keypool"] else []) ++
    (if internal then ["--internal"] else []) ++
    ["--addr-type", addr_type.toStr] ++
    (if addr_all then ["--addr-all"] else []) ++
    ["--account", toString account] ++
    (match path with
     | some p => ["--path", p]
     | none => []) ++
    [toString start, toString stop]

/-- `get_keypool` (`binary_implementation.rs:130-170`). -/
def get_keypool (exec : Exec) (st : State) (keypool internal : Bool)
    (addr_type : HWIAddressType) (addr_all : Bool) (account : Nat)
    (path : Option String) (start stop : Nat) : Except Error String :=
  run_hwi_command exec st.device st.expert (some st.chain)
    (get_keypool_args keypool internal addr_type addr_all account path
      start stop)

/-- `get_descriptors` (`binary_implementation.rs:172-183`). -/
def get_descriptors (exec : Exec) (st : State) (account : Nat) :
    Except Error String :=
  run_hwi_command exec st.device st.expert (some st.chain)
    ["getdescriptors", "--account", toString account]

/-- `display_address_with_desc` (`binary_implementation.rs:185-196`): the
descriptor is pushed as given, after the `--desc` flag. -/
def display_address_with_desc (exec : Exec) (st : State)
    (descriptor : String) : Except Error String :=
  run_hwi_command exec st.device st.expert (some st.chain)
    ["displayaddress", "--desc", descriptor]

/-- `display_address_with_path` (`binary_implementation.rs:198-214`). -/
def display_address_with_path (exec : Exec) (st : State) (path : String)
    (address_type : HWIAddressType) : Except Error String :=
  run_hwi_command exec st.device st.expert (some st.chain)
    ["displayaddress", "--path", path, "--addr-type", address_type.toStr]

/-- `install_udev_rules` (`binary_implementation.rs:216-221`): the source
argument is ignored; the call is routed through `run_hwi_command` with no
device, no expert flag and no chain. -/
def install_udev_rules (exec : Exec) (source location : String) :
    Except Error String :=
  let _ := source
  run_hwi_command exec none false none
    ["installudevrules", "--location", location]

/-- `wipe_device` (`binary_implementation.rs:276-284`). -/
def wipe_device (exec : Exec) (st : State) : Except Error String :=
  run_hwi_command exec st.device st.expert (some st.chain) ["wipe"]

/-- `toggle_passphrase` (`binary_implementation.rs:227-235`). -/
def toggle_passphrase (exec : Exec) (st : State) : Except Error String :=
  run_hwi_command exec st.device st.expert (some st.chain)
    ["togglepassphrase"]

/-- `setup_device` (`binary_implementation.rs:237-248`). -/
def setup_device (exec : Exec) (st : State) (label passphrase : String) :
    Except Error String :=
  run_hwi_command exec st.device st.expert (some st.chain)
    ["setup", "--label", label, "--backup_passphrase", passphrase]

/-- `restore_device` (`binary_implementation.rs:250-262`). -/
def restore_device (exec : Exec) (st : State) (label : String)
    (word_count : Nat) : Except Error String :=
  run_hwi_command exec st.device st.expert (some st.chain)
    ["restore", "--word_count", toString word_count, "--label", label]

/-- `backup_device` (`binary_implementation.rs:263-274`). -/
def backup_device (exec : Exec) (st : State)
    (label backup_passphrase : String) : Except Error String :=
  run_hwi_command exec st.device st.expert (some st.chain)
    ["backup", "--label", label, "--backup_passphrase", backup_passphrase]

end BinaryHWIImplementation

/-- A fixed sample device used by concrete witnesses. -/
def devZero : HWIDevice :=
  ⟨.Trezor, "T", "webusb:001", false, false, ⟨0, 0, 0, 0⟩⟩

/-- Helper: `Vec::contains` is false when the element is not in the list. -/
theorem contains_eq_false {a : String} {l : List String} (h : a ∉ l) :
    l.contains a = false := by
  cases hc : l.contains a
  · rfl
  · exact absurd (List.elem_iff.mp hc) h

end Hwi

open Hwi BinaryHWIImplementation in
/-- C5 counterexample: for `sign_message` on a bound device, the vector
handed to the executor begins with the global `--fingerprint` flag, not with
the subcommand token `signmessage`. -/
theorem subprocess_vector_flags_first_counterexample :
    build_command_args (some devZero) false (some HWIChain.Test)
        (sign_message_args "hello" "m/44h/1h/0h/0/0") =
      .ok ["--fingerprint", "00000000", "--chain", "TEST",
        "signmessage", "hello", "m/44h/1h/0h/0/0"] ∧
    ("--fingerprint" : String) ≠ "signmessage" :=
  ⟨rfl, by decide⟩

open Hwi BinaryHWIImplementation in
/-- C5 amended: the vector handed to the executor begins with the global
flags — `--fingerprint` (for any operation whose tokens do not contain the
literal "enumerate" or "--version"), then `--expert` when set, then
`--chain` — followed by the operation's token sequence, whose first element
is the subcommand. -/
theorem subprocess_global_flags_precede_subcommand
    (d : HWIDevice) (expert : Bool) (chain : HWIChain)
    (sub : String) (rest : List String)
    (h1 : sub ≠ "enumerate") (h2 : sub ≠ "--version")
    (h3 : "enumerate" ∉ rest) (h4 : "--version" ∉ rest) :
    build_command_args (some d) expert (some chain) (sub :: rest) =
      .ok (["--fingerprint", d.fingerprint.toStr] ++
        (if expert then ["--expert"] else []) ++
        ["--chain", chain.toStr] ++ (sub :: rest)) := by
  have hc1 : ((sub :: rest).contains "enumerate") = false :=
    contains_eq_false (by
      intro hmem
      rcases List.mem_cons.mp hmem with h | h
      · exact h1 h.symm
      · exact h3 h)
  have hc2 : ((sub :: rest).contains "--version") = false :=
    contains_eq_false (by
      intro hmem
      rcases List.mem_cons.mp hmem with h | h
      · exact h2 h.symm
      · exact h4 h)
  unfold build_command_args
  rw [hc1, hc2]
  rfl

open Hwi BinaryHWIImplementation in
/-- C5 amended witness: `sign_message` tokens on a bound device with
expert set. -/
theorem subprocess_global_flags_precede_subcommand_witness :
    build_command_args (some devZero) true (some HWIChain.Test)
        ("signmessage" :: ["hello", "m"]) =
      .ok (["--fingerprint", devZero.fingerprint.toStr] ++
        (if true then ["--expert"] else []) ++
        ["--chain", HWIChain.Test.toStr] ++ ("signmessage" :: ["hello", "m"])) :=
  subprocess_global_flags_precede_subcommand devZero true .Test
    "signmessage" ["hello", "m"] (by decide) (by decide) (by decide) (by decide)

open Hwi BinaryHWIImplementation in
/-- C6 counterexample: `sign_message` — a per-device operation — called on a
client whose device identity is absent, with message text "enumerate",
does not fail with the missing-device-identity error: the command is handed
to the executor (here one that answers "done"). -/
theorem per_device_guard_bypass_counterexample :
    sign_message (fun _ => .ok "done") ⟨none, false, HWIChain.Test⟩
        "enumerate" "m/44h/1h/0h/0/0" = .ok "done" ∧
    (Except.ok "done" : Except Hwi.Error String) ≠
      .error (.Hwi "Device fingerprint not set" none) :=
  ⟨rfl, fun h => Except.noConfusion h⟩

open Hwi BinaryHWIImplementation in
/-- C6 amended: `enumerate` and `get_version` run with no bound device and
hand the executor exactly their own token (no fingerprint flag); every call
routed through `run_hwi_command` with no bound device whose tokens do not
contain the literal "enumerate" or "--version" fails with the
missing-device-identity error before any executor (the result is the same
for every executor). -/
theorem subprocess_fingerprint_guard :
    (∀ exec : Exec, enumerate exec = exec ["enumerate"] ∧
      get_version exec = exec ["--version"]) ∧
    (∀ (exec : Exec) (expert : Bool) (chain : Option HWIChain)
        (args : List String), "enumerate" ∉ args → "--version" ∉ args →
      run_hwi_command exec none expert chain args =
        .error (.Hwi "Device fingerprint not set" none)) := by
  constructor
  · exact fun exec => ⟨rfl, rfl⟩
  · intro exec expert chain args h1 h2
    unfold run_hwi_command build_command_args
    rw [contains_eq_false h1, contains_eq_false h2]
    rfl

open Hwi BinaryHWIImplementation in
/-- C6 amended witness: `wipe_device` with no bound device fails with the
missing-device-identity error. -/
theorem subprocess_fingerprint_guard_witness :
    run_hwi_command (fun _ => .ok "") none false (some HWIChain.Test)
        ["wipe"] = .error (.Hwi "Device fingerprint not set" none) :=
  subprocess_fingerprint_guard.2 (fun _ => .ok "") false (some .Test)
    ["wipe"] (by decide) (by decide)

open Hwi BinaryHWIImplementation in
/-- C9 counterexample: `install_udev_rules` with location "enumerate" does
not return an error — the contains-based global-call detection fires, the
fingerprint guard is skipped, and the executor's answer is returned. -/
theorem install_udev_rules_location_enumerate_counterexample :
    install_udev_rules (fun _ => .ok "rules installed") "./udev"
      "enumerate" = .ok "rules installed" := rfl

open Hwi BinaryHWIImplementation in
/-- C9 amended: for every location other than the literals "enumerate" and
"--version" (and any source string, which is ignored), `install_udev_rules`
on the subprocess backend fails with the missing-device-identity error, for
every executor — the guard rejects the call before the executor runs. -/
theorem install_udev_rules_always_guarded (exec : Exec)
    (source location : String) (h1 : location ≠ "enumerate")
    (h2 : location ≠ "--version") :
    install_udev_rules exec source location =
      .error (.Hwi "Device fingerprint not set" none) := by
  have hc1 :
      (["installudevrules", "--location", location].contains "enumerate") =
        false :=
    contains_eq_false (by
      intro hmem
      simp only [List.mem_cons, List.mem_singleton, List.not_mem_nil,
        or_false] at hmem
      rcases hmem with h | h | h
      · exact absurd h (by decide)
      · exact absurd h (by decide)
      · exact h1 h.symm)
  have hc2 :
      (["installudevrules", "--location", location].contains "--version") =
        false :=
    contains_eq_false (by
      intro hmem
      simp only [List.mem_cons, List.mem_singleton, List.not_mem_nil,
        or_false] at hmem
      rcases hmem with h | h | h
      · exact absurd h (by decide)
      · exact absurd h (by decide)
      · exact h2 h.symm)
  unfold install_udev_rules run_hwi_command build_command_args
  rw [hc1, hc2]
  rfl

open Hwi BinaryHWIImplementation in
/-- C9 amended witness: the documented default location fails with the
missing-device-identity error. -/
theorem install_udev_rules_always_guarded_witness :
    install_udev_rules (fun _ => .ok "") "./udev" "/lib/udev/rules.d/" =
      .error (.Hwi "Device fingerprint not set" none) :=
  install_udev_rules_always_guarded (fun _ => .ok "") "./udev"
    "/lib/udev/rules.d/" (by decide) (by decide)

open Hwi BinaryHWIImplementation in
/-- C10: the global-call detection tests whether the token list contains the
literal "enumerate" anywhere, so `sign_message` with message "enumerate" on
a client with a bound device skips the fingerprint requirement: the vector
handed to the executor is just expert/chain flags plus the operation tokens,
and contains no "--fingerprint" token. -/
theorem sign_message_enumerate_literal_skips_fingerprint
    (exec : Exec) (d : HWIDevice) (expert : Bool) (chain : HWIChain)
    (p : String) (hp : p ≠ "--fingerprint") :
    sign_message exec ⟨some d, expert, chain⟩ "enumerate" p =
      exec ((if expert then ["--expert"] else []) ++
        ["--chain", chain.toStr] ++ ["signmessage", "enumerate", p]) ∧
    "--fingerprint" ∉ ((if expert then ["--expert"] else []) ++
        ["--chain", chain.toStr] ++ ["signmessage", "enumerate", p]) := by
  constructor
  · rfl
  · intro hmem
    cases chain <;> cases expert <;>
      simp [HWIChain.toStr, Ne.symm hp] at hmem

namespace Hwi

/-- Rust `str::split(sep)` on a character list: splits at every occurrence
of `sep`; adjacent or leading/trailing separators yield empty segments, and
the result is always non-empty. -/
def splitChar (sep : Char) : List Char → List (List Char)
  | [] => [[]]
  | x :: rest =>
    if x = sep then [] :: splitChar sep rest
    else
      match splitChar sep rest with
      | [] => [[x]]
      | h :: t => (x :: h) :: t

/-- The descriptor-argument computation of
`HWIClient::display_address_with_desc` (`src/interface.rs:331`):
`descriptor.to_string().split('#').collect::<Vec<_>>()[0]` — the first
split segment is the argument handed to the backend call. `split` always
yields at least one segment, so the Rust index `[0]` cannot panic;
`headD` mirrors it. -/
def display_address_desc_argument (descriptor : String) : String :=
  ⟨(splitChar '#' descriptor.data).headD []⟩

/-- Helper: splitting `l₁ ++ sep :: l₂` where `l₁` is separator-free puts
`l₁` as the first segment. -/
theorem splitChar_append_sep (sep : Char) (l₁ l₂ : List Char)
    (h : sep ∉ l₁) :
    splitChar sep (l₁ ++ sep :: l₂) = l₁ :: splitChar sep l₂ := by
  induction l₁ with
  | nil => simp [splitChar]
  | cons x xs ih =>
    have hx : x ≠ sep := fun he => h (he ▸ List.mem_cons_self x xs)
    have hxs : sep ∉ xs := fun hm => h (List.mem_cons_of_mem x hm)
    simp only [List.cons_append, splitChar, if_neg hx, List.append_eq,
      ih hxs]

end Hwi

open Hwi in
/-- C7: for every descriptor of the form `a ++ "#" ++ b` where `a` contains
no `#`, the argument `display_address_with_desc` passes to the backend is
exactly `a` — the text up to but not including the first `#`. -/
theorem display_address_desc_strips_checksum (a b : String)
    (ha : '#' ∉ a.data) :
    display_address_desc_argument (a ++ "#" ++ b) = a := by
  have hdata : (a ++ "#" ++ b).data = a.data ++ '#' :: b.data := by
    simp [String.data_append]
  unfold display_address_desc_argument
  rw [hdata, splitChar_append_sep '#' a.data b.data ha]
  rfl

open Hwi in
/-- C7 witness: the spec's own example, `"wpkh(...)/0/*#abcdef12"`. -/
theorem display_address_desc_strips_checksum_witness :
    display_address_desc_argument "wpkh(abc)/0/*#abcdef12" = "wpkh(abc)/0/*" :=
  display_address_desc_strips_checksum "wpkh(abc)/0/*" "abcdef12" (by decide)

namespace Hwi

/-- Generic JSON value (`serde_json::Value`). Floats never occur in the
payloads the claims concern, so numbers are integers. -/
inductive Json where
  | null
  | bool (b : Bool)
  | num (n : Int)
  | str (s : String)
  | arr (xs : List Json)
  | obj (fields : List (String × Json))

/-- Field lookup in a JSON object (`none` for non-objects and missing
fields). -/
def Json.get? (j : Json) (key : String) : Option Json :=
  match j with
  | .obj fields => fields.lookup key
  | _ => none

/-- serde decode of an `Option<String>` field: missing or `null` is `None`,
a JSON string is `Some`, any other shape is a type error. -/
def decodeOptString (j : Json) (key : String) :
    Except String (Option String) :=
  match j.get? key with
  | none => .ok none
  | some .null => .ok none
  | some (.str s) => .ok (some s)
  | some _ => .error ("invalid type for field " ++ key)

/-- serde decode of an `Option<bool>` field. -/
def decodeOptBool (j : Json) (key : String) : Except String (Option Bool) :=
  match j.get? key with
  | none => .ok none
  | some .null => .ok none
  | some (.bool b) => .ok (some b)
  | some _ => .error ("invalid type for field " ++ key)

/-- serde decode of an `Option<i8>` field: the number must fit in i8. -/
def decodeOptI8 (j : Json) (key : String) : Except String (Option Int) :=
  match j.get? key with
  | none => .ok none
  | some .null => .ok none
  | some (.num n) =>
    if -128 ≤ n ∧ n ≤ 127 then .ok (some n)
    else .error ("out of range for field " ++ key)
  | some _ => .error ("invalid type for field " ++ key)

/-- serde decode of an `Option<Fingerprint>` field: a string of eight hex
characters. -/
def decodeOptFingerprint (j : Json) (key : String) :
    Except String (Option Fingerprint) :=
  match j.get? key with
  | none => .ok none
  | some .null => .ok none
  | some (.str s) =>
    match Fingerprint.fromHex s with
    | some f => .ok (some f)
    | none => .error ("invalid fingerprint in field " ++ key)
  | some _ => .error ("invalid type for field " ++ key)

/-- Derived `Deserialize` of `HWIDeviceInternal`
(`src/types.rs:189-200`): every field optional, with the wire name "type"
renamed to `device_type`. -/
def decodeHWIDeviceInternal (j : Json) : Except String HWIDeviceInternal :=
  match j with
  | .obj _ => do
    let dt ← decodeOptString j "type"
    let m ← decodeOptString j "model"
    let p ← decodeOptString j "path"
    let nps ← decodeOptBool j "needs_pin_sent"
    let npps ← decodeOptBool j "needs_passphrase_sent"
    let fp ← decodeOptFingerprint j "fingerprint"
    let er ← decodeOptString j "error"
    let c ← decodeOptI8 j "code"
    .ok ⟨dt, m, p, nps, npps, fp, er, c⟩
  | _ => .error "invalid type: expected an object"

/-- serde decode of a JSON array of tolerant device records, element by
element (a failing element fails the whole decode, as in serde). -/
def decodeInternalList : List Json → Except String (List HWIDeviceInternal)
  | [] => .ok []
  | x :: rest => do
    let d ← decodeHWIDeviceInternal x
    let t ← decodeInternalList rest
    .ok (d :: t)

/-- The `Vec<HWIDeviceInternal>` target of the enumerate decode. -/
def decodeDeviceArray (j : Json) : Except String (List HWIDeviceInternal) :=
  match j with
  | .arr xs => decodeInternalList xs
  | _ => .error "invalid type: expected an array"

/-- The tolerant enumerate pipeline (`HWIClient::enumerate`,
`src/interface.rs:79-87`): deserialize the payload into
`Vec<HWIDeviceInternal>` (a decode failure fails the whole call, wrapped as
an `Hwi` error by `deserialize_obj!`), then convert each record
independently. -/
def enumerate_decode (j : Json) : Except Error (List ConvOutcome) :=
  match decodeDeviceArray j with
  | .error e => .error (.Hwi e none)
  | .ok ds => .ok (ds.map HWIDevice.try_from)

end Hwi

open Hwi in
/-- C4: the payload `[well-formed device object, obj with error "x" and
code -7]` decodes to a two-element vector: first the converted device,
second an error whose symbolic code is `BadArgument` (the `-7` mapping). -/
theorem enumerate_tolerant_decode_example :
    enumerate_decode (.arr
        [.obj [("type", .str "trezor"), ("model", .str "Trezor One"),
          ("path", .str "webusb:001"), ("needs_pin_sent", .bool false),
          ("needs_passphrase_sent", .bool false),
          ("fingerprint", .str "00000001")],
         .obj [("error", .str "x"), ("code", .num (-7))]]) =
      .ok [ConvOutcome.ok
            ⟨.Trezor, "Trezor One", "webusb:001", false, false, ⟨0, 0, 0, 1⟩⟩,
           ConvOutcome.err (.Hwi "x" (some .BadArgument))] ∧
    [ConvOutcome.ok
        ⟨.Trezor, "Trezor One", "webusb:001", false, false, ⟨0, 0, 0, 1⟩⟩,
      ConvOutcome.err (.Hwi "x" (some .BadArgument))].length = 2 :=
  ⟨rfl, rfl⟩

namespace Hwi

/-- External `bitcoin::bip32::Xpub`, modelled by its canonical string form:
the crate's serde for it serializes via `Display` and deserializes via
`FromStr`, whose round-trip is the external contract this model takes as
given. -/
structure Xpub where
  s : String
  deriving DecidableEq, Repr

/-- `HWIExtendedPubKey` (`src/types.rs:22-25`): `{xpub: Xpub}` with derived
serde. -/
structure HWIExtendedPubKey where
  xpub : Xpub
  deriving DecidableEq, Repr

/-- Derived `Serialize` of `HWIExtendedPubKey`: one string field. -/
def serHWIExtendedPubKey (x : HWIExtendedPubKey) : Json :=
  .obj [("xpub", .str x.xpub.s)]

/-- Derived `Deserialize` of `HWIExtendedPubKey`. -/
def deserHWIExtendedPubKey (j : Json) : Except String HWIExtendedPubKey :=
  match j.get? "xpub" with
  | some (.str s) => .ok ⟨⟨s⟩⟩
  | some _ => .error "invalid type for field xpub"
  | none => .error "missing field xpub"

/-- `HWIAddress` (`src/types.rs:58-61`): wraps an external
`Address<NetworkUnchecked>`, whose serde is string-based; modelled by its
canonical string form. -/
structure HWIAddress where
  address : String
  deriving DecidableEq, Repr

/-- Derived `Serialize` of `HWIAddress`. -/
def serHWIAddress (a : HWIAddress) : Json :=
  .obj [("address", .str a.address)]

/-- Derived `Deserialize` of `HWIAddress`. -/
def deserHWIAddress (j : Json) : Except String HWIAddress :=
  match j.get? "address" with
  | some (.str s) => .ok ⟨s⟩
  | some _ => .error "invalid type for field address"
  | none => .error "missing field address"

/-- `HWIDescriptor<String>` (`src/types.rs:87-94`): two string lists with
derived serde. -/
structure HWIDescriptorS where
  internal : List String
  receive : List String
  deriving DecidableEq, Repr

/-- serde decode of one JSON string. -/
def decodeStrElem : Json → Except String String
  | .str s => .ok s
  | _ => .error "invalid type: expected a string"

/-- serde decode of a JSON array of strings, element by element (a failing
element fails the whole decode, as in serde). -/
def decodeStrList : List Json → Except String (List String)
  | [] => .ok []
  | x :: rest =>
    match decodeStrElem x with
    | .error e => .error e
    | .ok s =>
      match decodeStrList rest with
      | .error e => .error e
      | .ok t => .ok (s :: t)

/-- serde decode of a `Vec<String>` field. -/
def decodeStringArrField (j : Json) (key : String) :
    Except String (List String) :=
  match j.get? key with
  | some (.arr xs) => decodeStrList xs
  | some _ => .error ("invalid type for field " ++ key)
  | none => .error ("missing field " ++ key)

/-- Derived `Serialize` of `HWIDescriptor<String>`, fields in declaration
order. -/
def serHWIDescriptor (d : HWIDescriptorS) : Json :=
  .obj [("internal", .arr (d.internal.map Json.str)),
        ("receive", .arr (d.receive.map Json.str))]

/-- Derived `Deserialize` of `HWIDescriptor<String>`: both fields
required. -/
def deserHWIDescriptor (j : Json) : Except String HWIDescriptorS :=
  match decodeStringArrField j "internal" with
  | .error e => .error e
  | .ok i =>
    match decodeStringArrField j "receive" with
    | .error e => .error e
    | .ok r => .ok ⟨i, r⟩

/-- `HWISignature` (`src/types.rs:35-39`): `{signature: Vec<u8>}`; the
bytes are `Nat`s. -/
structure HWISignature where
  signature : List Nat
  deriving DecidableEq, Repr

/-- Derived `Serialize` of `HWISignature`: serde's derived impl for
`Vec<u8>` emits a JSON array of numbers (the struct has no custom
`serialize_with`). -/
def serHWISignature (s : HWISignature) : Json :=
  .obj [("signature", .arr (s.signature.map fun b => Json.num b))]

/-- Value of one standard-alphabet base64 character. -/
def b64Val (c : Char) : Option Nat :=
  if 65 ≤ c.toNat ∧ c.toNat ≤ 90 then some (c.toNat - 65)
  else if 97 ≤ c.toNat ∧ c.toNat ≤ 122 then some (c.toNat - 71)
  else if 48 ≤ c.toNat ∧ c.toNat ≤ 57 then some (c.toNat + 4)
  else if c = '+' then some 62
  else if c = '/' then some 63
  else none

/-- Standard base64 decoding with mandatory padding
(`general_purpose::STANDARD`), four characters at a time. -/
def base64DecodeChunks : List Char → Option (List Nat)
  | [] => some []
  | c0 :: c1 :: c2 :: c3 :: rest => do
    let v0 ← b64Val c0
    let v1 ← b64Val c1
    if c2 = '=' then
      if c3 = '=' ∧ rest = [] then some [v0 * 4 + v1 / 16] else none
    else do
      let v2 ← b64Val c2
      if c3 = '=' then
        if rest = [] then some [v0 * 4 + v1 / 16, v1 % 16 * 16 + v2 / 4]
        else none
      else do
        let v3 ← b64Val c3
        let tail ← base64DecodeChunks rest
        some ([v0 * 4 + v1 / 16, v1 % 16 * 16 + v2 / 4, v2 % 4 * 64 + v3] ++
          tail)
  | _ => none

/-- Base64-decode a string (length must be a multiple of four). -/
def base64Decode (s : String) : Option (List Nat) :=
  base64DecodeChunks s.data

/-- The custom deserializer `from_b64` (`src/types.rs:41-48`): requires a
JSON *string*, then base64-decodes it; a non-string input is a serde type
error, a failed decode is the custom message. -/
def from_b64 (j : Json) : Except String (List Nat) :=
  match j with
  | .str s =>
    match base64Decode s with
    | some bs => .ok bs
    | none => .error "error while deserializing signature"
  | _ => .error "invalid type: expected a string"

/-- Derived `Deserialize` of `HWISignature`, with the field routed through
`from_b64` (`#[serde(deserialize_with = "from_b64")]`). -/
def deserHWISignature (j : Json) : Except String HWISignature :=
  match j.get? "signature" with
  | some v =>
    match from_b64 v with
    | .ok bs => .ok ⟨bs⟩
    | .error e => .error e
  | none => .error "missing field signature"

/-- Helper: decoding an array of JSON strings produced from a string list
gives the list back. -/
theorem decodeStrList_map_str (l : List String) :
    decodeStrList (l.map Json.str) = .ok l := by
  induction l with
  | nil => rfl
  | cons x xs ih =>
    show (match decodeStrList (xs.map Json.str) with
      | .error e => (Except.error e : Except String (List String))
      | .ok t => .ok (x :: t)) = .ok (x :: xs)
    rw [ih]

end Hwi

open Hwi in
/-- C8 counterexample: for the signature value with bytes `[0, 1]`,
serializing emits a JSON array (serde's derived `Serialize` for `Vec<u8>`)
while deserialization requires a base64 *string* (`from_b64`), so decoding
the serialization fails instead of returning the value. -/
theorem signature_json_roundtrip_counterexample :
    deserHWISignature (serHWISignature ⟨[0, 1]⟩) =
      .error "invalid type: expected a string" := rfl

open Hwi in
/-- C8 amended: decode after encode is the identity for ExtendedPubKey,
Address and Descriptor, but fails for every Signature value: the signature
field serializes as a JSON byte array while deserialization demands a
base64 string. -/
theorem domain_json_roundtrip :
    (∀ x : HWIExtendedPubKey,
      deserHWIExtendedPubKey (serHWIExtendedPubKey x) = .ok x) ∧
    (∀ a : HWIAddress, deserHWIAddress (serHWIAddress a) = .ok a) ∧
    (∀ d : HWIDescriptorS, deserHWIDescriptor (serHWIDescriptor d) = .ok d) ∧
    (∀ s : HWISignature, deserHWISignature (serHWISignature s) =
      .error "invalid type: expected a string") := by
  refine ⟨fun x => rfl, fun a => rfl, fun d => ?_, fun s => rfl⟩
  have h1 : decodeStringArrField (serHWIDescriptor d) "internal" =
      .ok d.internal := by
    show decodeStrList (d.internal.map Json.str) = .ok d.internal
    exact decodeStrList_map_str d.internal
  have h2 : decodeStringArrField (serHWIDescriptor d) "receive" =
      .ok d.receive := by
    show decodeStrList (d.receive.map Json.str) = .ok d.receive
    exact decodeStrList_map_str d.receive
  show (match decodeStringArrField (serHWIDescriptor d) "internal" with
    | .error e => (Except.error e : Except String HWIDescriptorS)
    | .ok i =>
      match decodeStringArrField (serHWIDescriptor d) "receive" with
      | .error e => .error e
      | .ok r => .ok ⟨i, r⟩) = .ok d
  rw [h1, h2]

open Hwi BinaryHWIImplementation in
/-- C10 witness: concrete executor, device, expert flag, chain and path. -/
theorem sign_message_enumerate_literal_skips_fingerprint_witness :
    sign_message (fun l => .ok (String.intercalate " " l))
        ⟨some devZero, true, HWIChain.Test⟩ "enumerate" "m" =
      (fun l => (.ok (String.intercalate " " l) : Except Hwi.Error String))
        ((if true then ["--expert"] else []) ++
          ["--chain", HWIChain.Test.toStr] ++
          ["signmessage", "enumerate", "m"]) ∧
    "--fingerprint" ∉ ((if true then ["--expert"] else []) ++
        ["--chain", HWIChain.Test.toStr] ++
        ["signmessage", "enumerate", "m"]) :=
  sign_message_enumerate_literal_skips_fingerprint
    (fun l => .ok (String.intercalate " " l)) devZero true .Test "m"
    (by decide)
